import Mathlib

/-!
Shallow embedding of the numerical core of the PropertyManager repository.

Covered code:
* analysis.py — calculate_monthly_cash_flow (the CashFlowCalculator of the
  spec) and calculate_break_even_down_payment (the BreakEvenSearch);
* app.py — calculate_investment_projections (the ProjectionSimulator).

Modelling conventions:
* Python floats are modelled as exact rationals (ℚ).  All quantities in the
  program are produced by field operations on decimal inputs, so every value
  is an exact rational; float rounding error is ignored, which changes no
  comparison except at knife-edge ties.
* round(x, 2) is modelled by round2 below.  Mathlib's round is
  round-half-up while Python's is round-half-even; the two differ only on
  exact .005 ties, and no claim below depends on the tie direction.
* The one place where a float operation can produce NaN — the mortgage
  formula's division when its denominator (1 + monthly_rate)^loan_months - 1
  is zero, i.e. at interest_rate = 0 — is modelled by an Option-valued
  function (none = NaN).  The total (ℚ-valued) row computation used by the
  rest of the development agrees with it whenever the denominator is
  nonzero, which a lemma below records; theorems about the pipeline
  therefore carry the hypothesis 0 < interest_rate under which the total
  model is faithful.
* np.arange(0.20, 1.0, 0.01) produces the 80 floats 0.20 + k * 0.01,
  k = 0..79; it is modelled by the exact list (20 + k) / 100, k < 80.
-/

namespace PropertyManager

/-- Rounding to two decimal places, modelling Python's round(x, 2). -/
def round2 (q : ℚ) : ℚ := ((round (q * 100) : ℤ) : ℚ) / 100

theorem round2_mono {a b : ℚ} (h : a ≤ b) : round2 a ≤ round2 b := by
  unfold round2
  have h1 : round (a * 100) ≤ round (b * 100) := by
    rw [round_eq, round_eq]
    exact Int.floor_mono (by linarith)
  have h2 : ((round (a * 100) : ℤ) : ℚ) ≤ ((round (b * 100) : ℤ) : ℚ) := by
    exact_mod_cast h1
  linarith

theorem round2_zero : round2 0 = 0 := by
  unfold round2
  simp

theorem round2_nonneg {a : ℚ} (h : 0 ≤ a) : 0 ≤ round2 a := by
  have := round2_mono h
  rwa [round2_zero] at this

/-- round2 is the identity on exact multiples of 1/100. -/
theorem round2_int_div (z : ℤ) : round2 ((z : ℚ) / 100) = (z : ℚ) / 100 := by
  unfold round2
  rw [div_mul_cancel₀ _ (by norm_num : (100 : ℚ) ≠ 0), round_intCast]

/-!
## The listings table of analysis.py

A row of the DataFrame handled by calculate_monthly_cash_flow.  The ID field
stands for all pass-through columns (address, zpid, sqft, ...); Price and
RentEstimate are the two columns the calculator reads; the last three fields
are the derived columns it writes (overwriting any previous values).  Rows
with a missing Price are dropped upstream by normalize_zillow_data and
RentEstimate is defaulted by the caller, so modelled rows carry exact
numbers.
-/
structure PropertyRow where
  ID : ℕ
  Price : ℚ
  RentEstimate : ℚ
  PropertyTax : ℚ
  MonthlyMortgage : ℚ
  MonthlyCashFlow : ℚ
deriving DecidableEq

/-- The MonthlyMortgage column formula of calculate_monthly_cash_flow
(analysis.py lines 35-40), with the float division modelled honestly:
when the denominator (1 + monthly_rate)^loan_months - 1 is zero — as at
interest_rate = 0, where the source computes 0.0/0.0 — the float result is
NaN, modelled here as none.  There is no zero-rate branch in this function
(unlike calculate_investment_projections in app.py). -/
def monthlyMortgageOf (price interest_rate : ℚ) (loan_months : ℕ)
    (down_payment_percent : ℚ) : Option ℚ :=
  let monthly_rate := interest_rate / 12
  let loan_to_value := 1 - down_payment_percent
  let denom := (1 + monthly_rate) ^ loan_months - 1
  if denom = 0 then none
  else
    some (round2 ((loan_to_value * price * (monthly_rate * (1 + monthly_rate) ^ loan_months)) / denom))

/-- The per-row column computation of calculate_monthly_cash_flow
(analysis.py lines 32-46), as a total function on ℚ.  It coincides with the
honest monthlyMortgageOf whenever the mortgage denominator is nonzero
(lemma computeRow_mortgage_eq below); all theorems about the pipeline
carry a hypothesis guaranteeing this. -/
def computeRow (interest_rate : ℚ) (loan_months : ℕ)
    (monthly_insurance down_payment_percent : ℚ) (r : PropertyRow) : PropertyRow :=
  let monthly_rate := interest_rate / 12
  let loan_to_value := 1 - down_payment_percent
  let tax := round2 (r.Price * (125 / 10000) / 12)
  let mortgage := round2 ((loan_to_value * r.Price * (monthly_rate * (1 + monthly_rate) ^ loan_months)) /
      ((1 + monthly_rate) ^ loan_months - 1))
  let cash_flow := round2 (r.RentEstimate - (tax + mortgage + monthly_insurance))
  { r with PropertyTax := tax, MonthlyMortgage := mortgage, MonthlyCashFlow := cash_flow }

theorem computeRow_mortgage_eq (interest_rate : ℚ) (loan_months : ℕ)
    (monthly_insurance down_payment_percent : ℚ) (r : PropertyRow)
    (h : (1 + interest_rate / 12) ^ loan_months - 1 ≠ 0) :
    monthlyMortgageOf r.Price interest_rate loan_months down_payment_percent =
      some ((computeRow interest_rate loan_months monthly_insurance down_payment_percent r).MonthlyMortgage) := by
  unfold monthlyMortgageOf computeRow
  rw [if_neg h]

/-- A positive interest rate makes the mortgage denominator positive (the
faithfulness condition of the total model). -/
theorem denom_pos_of_rate_pos {interest_rate : ℚ} (hr : 0 < interest_rate)
    {loan_months : ℕ} (hm : loan_months ≠ 0) :
    0 < (1 + interest_rate / 12) ^ loan_months - 1 := by
  have h1 : (1 : ℚ) < 1 + interest_rate / 12 := by linarith [div_pos hr (by norm_num : (0:ℚ) < 12)]
  have := one_lt_pow₀ h1 hm
  linarith

/-- C2, code side: at a zero annual interest rate the mortgage column of
calculate_monthly_cash_flow is undefined (the float division is 0.0/0.0,
i.e. NaN) for every price, down-payment fraction and term — the claimed
straight-line branch does not exist in this function; it exists only in
calculate_investment_projections (modelled below as monthly_mortgage). -/
theorem c2_zero_rate_mortgage_is_nan (price down_payment_percent : ℚ) (loan_months : ℕ) :
    monthlyMortgageOf price 0 loan_months down_payment_percent = none := by
  unfold monthlyMortgageOf
  norm_num

/-!
## The descending sort of calculate_monthly_cash_flow

analysis.py line 49: df.sort_values(by=['MonthlyCashFlow'], ascending=False)
with the default kind quicksort.  pandas implements descending order by
reversing the column and index, argsorting ascending with the chosen kind,
and reversing the result again; the default kernel (numpy introsort) is
documented unstable, so the source fixes NO particular order among records
with equal MonthlyCashFlow (beyond numpy's small-array insertion-sort
regime, where it happens to be stable).  A shallow embedding must be a
function, so the model below fixes the tie order to the stable descending
one; no claim theorem depends on the tie order chosen — the facts proved
about the sort (it emits a permutation of the computed rows, in descending
cash-flow order) hold under every tie order. -/
def insertByCashFlow (r : PropertyRow) : List PropertyRow → List PropertyRow
  | [] => [r]
  | x :: xs =>
    if x.MonthlyCashFlow ≤ r.MonthlyCashFlow then r :: x :: xs
    else x :: insertByCashFlow r xs

/-- Sort descending by MonthlyCashFlow (deterministic stand-in for the
unstable sort_values, see the section comment above). -/
def sortByCashFlowDesc : List PropertyRow → List PropertyRow
  | [] => []
  | x :: xs => insertByCashFlow x (sortByCashFlowDesc xs)

/-- calculate_monthly_cash_flow (analysis.py lines 8-52): add the three
derived columns to every row, then sort by cash flow, best deals first.
reset_index(drop=True) is a no-op in the list model. -/
def calculate_monthly_cash_flow (interest_rate : ℚ) (loan_months : ℕ)
    (monthly_insurance down_payment_percent : ℚ) (df : List PropertyRow) : List PropertyRow :=
  sortByCashFlowDesc (df.map (computeRow interest_rate loan_months monthly_insurance down_payment_percent))

theorem mem_insertByCashFlow {y r : PropertyRow} {l : List PropertyRow}
    (hy : y ∈ insertByCashFlow r l) : y = r ∨ y ∈ l := by
  induction l with
  | nil =>
    simp [insertByCashFlow] at hy
    exact Or.inl hy
  | cons z zs ihz =>
    unfold insertByCashFlow at hy
    by_cases hz : z.MonthlyCashFlow ≤ r.MonthlyCashFlow
    · rw [if_pos hz] at hy
      rcases List.mem_cons.mp hy with rfl | hy2
      · exact Or.inl rfl
      · exact Or.inr hy2
    · rw [if_neg hz] at hy
      rcases List.mem_cons.mp hy with rfl | hy2
      · exact Or.inr (List.mem_cons_self _ _)
      · rcases ihz hy2 with h' | h'
        · exact Or.inl h'
        · exact Or.inr (List.mem_cons_of_mem _ h')

theorem insertByCashFlow_pairwise (r : PropertyRow) (l : List PropertyRow)
    (h : l.Pairwise fun a b => b.MonthlyCashFlow ≤ a.MonthlyCashFlow) :
    (insertByCashFlow r l).Pairwise fun a b => b.MonthlyCashFlow ≤ a.MonthlyCashFlow := by
  induction l with
  | nil => simp [insertByCashFlow]
  | cons x xs ih =>
    rw [List.pairwise_cons] at h
    obtain ⟨hx, hxs⟩ := h
    unfold insertByCashFlow
    by_cases hc : x.MonthlyCashFlow ≤ r.MonthlyCashFlow
    · rw [if_pos hc]
      refine List.Pairwise.cons ?_ (List.Pairwise.cons hx hxs)
      intro y hy
      rcases List.mem_cons.mp hy with rfl | hy'
      · exact hc
      · exact le_trans (hx y hy') hc
    · rw [if_neg hc]
      refine List.Pairwise.cons ?_ (ih hxs)
      intro y hy
      rcases mem_insertByCashFlow hy with rfl | hy'
      · exact le_of_not_le hc
      · exact hx y hy'

theorem sortByCashFlowDesc_pairwise (l : List PropertyRow) :
    (sortByCashFlowDesc l).Pairwise fun a b => b.MonthlyCashFlow ≤ a.MonthlyCashFlow := by
  induction l with
  | nil => simp [sortByCashFlowDesc]
  | cons x xs ih => exact insertByCashFlow_pairwise x _ ih

theorem insertByCashFlow_perm (r : PropertyRow) (l : List PropertyRow) :
    (insertByCashFlow r l).Perm (r :: l) := by
  induction l with
  | nil => exact List.Perm.refl _
  | cons x xs ih =>
    unfold insertByCashFlow
    by_cases hc : x.MonthlyCashFlow ≤ r.MonthlyCashFlow
    · rw [if_pos hc]
    · rw [if_neg hc]
      exact (List.Perm.cons x ih).trans (List.Perm.swap r x xs)

theorem sortByCashFlowDesc_perm (l : List PropertyRow) : (sortByCashFlowDesc l).Perm l := by
  induction l with
  | nil => exact List.Perm.refl _
  | cons x xs ih =>
    show (insertByCashFlow x (sortByCashFlowDesc xs)).Perm (x :: xs)
    exact (insertByCashFlow_perm x _).trans (List.Perm.cons x ih)

/-- C5, code side: the CashFlowCalculator output is a permutation of the
computed rows ordered by descending MonthlyCashFlow (any earlier record's
cash flow is at least any later record's, so a record with strictly
greater cash flow precedes one with smaller).  Both conjuncts hold under
every tie order, so they do not depend on the deterministic tie order this
embedding picks.  The claim's stability half is NOT proved: the source
sorts with sort_values' default kind quicksort, which pandas documents as
unstable, so records with equal MonthlyCashFlow need not keep their
original relative order — the code-side defect of claim C5. -/
theorem c5_descending_order (interest_rate : ℚ) (loan_months : ℕ)
    (monthly_insurance down_payment_percent : ℚ) (df : List PropertyRow) :
    ((calculate_monthly_cash_flow interest_rate loan_months monthly_insurance down_payment_percent df).Perm
        (df.map (computeRow interest_rate loan_months monthly_insurance down_payment_percent))) ∧
      (calculate_monthly_cash_flow interest_rate loan_months monthly_insurance down_payment_percent df).Pairwise
        (fun a b => b.MonthlyCashFlow ≤ a.MonthlyCashFlow) :=
  ⟨sortByCashFlowDesc_perm _, sortByCashFlowDesc_pairwise _⟩

/-!
## BreakEvenSearch (analysis.py lines 55-108)
-/

/-- The candidate down-payment fractions np.arange(0.20, 1.0, 0.01):
0.20 + k * 0.01 for k = 0..79. -/
def scanFractions : List ℚ := (List.range 80).map fun k : ℕ => (20 + (k : ℚ)) / 100

/-- round2 is the identity on exact multiples of 1/100 with a natural
numerator. -/
theorem round2_nat_div (n : ℕ) : round2 ((n : ℚ) / 100) = (n : ℚ) / 100 := by
  have h : ((n : ℚ)) = (((n : ℤ) : ℚ)) := by push_cast; ring
  rw [h, round2_int_div]

theorem round2_scan (k : ℕ) : round2 ((20 + (k : ℚ)) / 100) = (20 + (k : ℚ)) / 100 := by
  have h : (20 + (k : ℚ)) = ((20 + k : ℕ) : ℚ) := by push_cast; ring
  rw [h, round2_nat_div]

/-- The augmented result row of calculate_break_even_down_payment: the
property columns plus DownPaymentPercent and DownPaymentAmount. -/
structure BreakEvenRow where
  row : PropertyRow
  DownPaymentPercent : ℚ
  DownPaymentAmount : ℚ
deriving DecidableEq

/-- The per-record body of the loop in calculate_break_even_down_payment
(analysis.py lines 72-99), together with the column assignments of lines
102-106 (which pair each kept row with its recorded percentage, in order,
and derive DownPaymentAmount = round(percent * Price, 2)).  A record
already profitable at the 20%-down figure it carries is passed through
unchanged at fraction 0.20; otherwise the fractions are scanned in order
and the first with positive recomputed cash flow is kept, the row being the
recomputed one; if none works the record yields none (it is skipped). -/
def breakEvenForRow (interest_rate : ℚ) (loan_months : ℕ) (monthly_insurance : ℚ)
    (r : PropertyRow) : Option BreakEvenRow :=
  if 0 < r.MonthlyCashFlow then
    some ⟨r, 20 / 100, round2 (20 / 100 * r.Price)⟩
  else
    (scanFractions.find? fun d =>
        decide (0 < (computeRow interest_rate loan_months monthly_insurance d r).MonthlyCashFlow)).map
      fun d => ⟨computeRow interest_rate loan_months monthly_insurance d r, round2 d,
        round2 (round2 d * r.Price)⟩

/-- The rows kept by the loop of calculate_break_even_down_payment
(analysis.py lines 69-99), each already paired with its recorded
percentage and derived amount as the trailing column assignments do. -/
def break_even_rows (interest_rate : ℚ) (loan_months : ℕ)
    (monthly_insurance : ℚ) (df : List PropertyRow) : List BreakEvenRow :=
  df.filterMap (breakEvenForRow interest_rate loan_months monthly_insurance)

/-- calculate_break_even_down_payment over the whole table (analysis.py
lines 55-108).  After the loop, lines 102-106 append DownPaymentPercent and
compute DownPaymentAmount = round(percent * Price, 2) — folded into each
kept row here.  When NO record was kept, result_df is still the empty
frame of line 69 and gains only the DownPaymentPercent column, so line 104
reads result_df['Price'] — a column that does not exist — and the call
raises KeyError; none models that exception. -/
def calculate_break_even_down_payment (interest_rate : ℚ) (loan_months : ℕ)
    (monthly_insurance : ℚ) (df : List PropertyRow) : Option (List BreakEvenRow) :=
  if break_even_rows interest_rate loan_months monthly_insurance df = [] then none
  else some (break_even_rows interest_rate loan_months monthly_insurance df)

/-- A record for which the break-even search has no viable down payment:
not already profitable, and no scanned fraction gives positive cash flow. -/
def RecordFails (interest_rate : ℚ) (loan_months : ℕ) (monthly_insurance : ℚ)
    (r : PropertyRow) : Prop :=
  ¬ 0 < r.MonthlyCashFlow ∧
    ∀ d ∈ scanFractions,
      ¬ 0 < (computeRow interest_rate loan_months monthly_insurance d r).MonthlyCashFlow

instance (interest_rate : ℚ) (loan_months : ℕ) (monthly_insurance : ℚ) (r : PropertyRow) :
    Decidable (RecordFails interest_rate loan_months monthly_insurance r) := by
  unfold RecordFails
  infer_instance

theorem breakEvenForRow_none_of_fails {interest_rate : ℚ} {loan_months : ℕ}
    {monthly_insurance : ℚ} {r : PropertyRow}
    (h : RecordFails interest_rate loan_months monthly_insurance r) :
    breakEvenForRow interest_rate loan_months monthly_insurance r = none := by
  unfold breakEvenForRow
  rw [if_neg h.1]
  have hnone : (scanFractions.find? fun d =>
      decide (0 < (computeRow interest_rate loan_months monthly_insurance d r).MonthlyCashFlow)) = none := by
    rw [List.find?_eq_none]
    intro d hd
    simp only [decide_eq_true_eq]
    exact h.2 d hd
  rw [hnone]
  rfl

/-- C1, code side: a record whose search range is exhausted without a
positive cash flow contributes nothing amid kept records (it is silently
dropped from whatever position it held — first conjunct), but the claim's
all-records-fail case does not return an empty collection: the loop keeps
nothing, and the column step of analysis.py lines 102-106 then reads the
missing Price column of the empty frame and raises KeyError, modelled as
none (second conjunct). -/
theorem c1_all_failing_raises_keyerror (interest_rate : ℚ) (loan_months : ℕ)
    (monthly_insurance : ℚ) :
    (∀ (l1 l2 : List PropertyRow) (r : PropertyRow),
        RecordFails interest_rate loan_months monthly_insurance r →
        break_even_rows interest_rate loan_months monthly_insurance (l1 ++ r :: l2) =
          break_even_rows interest_rate loan_months monthly_insurance l1 ++
            break_even_rows interest_rate loan_months monthly_insurance l2) ∧
    ∀ df : List PropertyRow,
      (∀ r ∈ df, RecordFails interest_rate loan_months monthly_insurance r) →
      calculate_break_even_down_payment interest_rate loan_months monthly_insurance df = none := by
  constructor
  · intro l1 l2 r hr
    unfold break_even_rows
    rw [List.filterMap_append, List.filterMap_cons, breakEvenForRow_none_of_fails hr]
  · intro df h
    have hnil : break_even_rows interest_rate loan_months monthly_insurance df = [] := by
      unfold break_even_rows
      rw [List.filterMap_eq_nil_iff]
      intro r hr
      exact breakEvenForRow_none_of_fails (h r hr)
    unfold calculate_break_even_down_payment
    rw [if_pos hnil]

/-- C10: every row of any returned break-even collection carries a strictly
positive MonthlyCashFlow — passed-through rows were tested positive,
searched rows were recomputed at a fraction accepted precisely because the
recomputed cash flow is positive.  (When nothing is kept the call raises
instead of returning a collection, so there is no row to consider.) -/
theorem c10_output_cash_flow_positive (interest_rate : ℚ) (loan_months : ℕ)
    (monthly_insurance : ℚ) (df : List PropertyRow) (result : List BreakEvenRow)
    (hres : calculate_break_even_down_payment interest_rate loan_months monthly_insurance df =
      some result)
    (b : BreakEvenRow) (hb : b ∈ result) :
    0 < b.row.MonthlyCashFlow := by
  unfold calculate_break_even_down_payment at hres
  by_cases hnil : break_even_rows interest_rate loan_months monthly_insurance df = []
  · rw [if_pos hnil] at hres
    exact absurd hres (by simp)
  · rw [if_neg hnil] at hres
    injection hres with hres
    subst hres
    unfold break_even_rows at hb
    obtain ⟨r, hr, heq⟩ := List.mem_filterMap.mp hb
    unfold breakEvenForRow at heq
    by_cases hpos : 0 < r.MonthlyCashFlow
    · rw [if_pos hpos] at heq
      injection heq with h
      rw [← h]
      exact hpos
    · rw [if_neg hpos] at heq
      cases hfind : scanFractions.find? fun d =>
          decide (0 < (computeRow interest_rate loan_months monthly_insurance d r).MonthlyCashFlow) with
      | none =>
        rw [hfind] at heq
        simp at heq
      | some d =>
        rw [hfind] at heq
        simp only [Option.map_some'] at heq
        injection heq with h
        have hq := List.find?_some hfind
        simp only [decide_eq_true_eq] at hq
        rw [← h]
        exact hq

/-- find? returns the first hit: there is a position n holding the result,
and the predicate is false at every earlier position. -/
theorem find?_first {α : Type} (q : α → Bool) :
    ∀ (l : List α) (a : α), l.find? q = some a →
      ∃ n : ℕ, l.get? n = some a ∧ q a = true ∧
        ∀ j, j < n → ∀ x, l.get? j = some x → q x = false := by
  intro l
  induction l with
  | nil =>
    intro a h
    simp [List.find?] at h
  | cons y ys ih =>
    intro a h
    by_cases hy : q y
    · rw [List.find?_cons_of_pos _ hy] at h
      injection h with h
      subst h
      refine ⟨0, rfl, hy, ?_⟩
      intro j hj
      omega
    · rw [List.find?_cons_of_neg _ hy] at h
      obtain ⟨n, hget, hq, hmin⟩ := ih a h
      refine ⟨n + 1, hget, hq, ?_⟩
      intro j hj x hx
      cases j with
      | zero =>
        injection hx with hx
        rw [← hx]
        exact Bool.eq_false_iff.mpr hy
      | succ j' =>
        exact hmin j' (by omega) x hx

theorem scanFractions_length : scanFractions.length = 80 := by
  unfold scanFractions
  rw [List.length_map, List.length_range]

theorem scanFractions_get? {k : ℕ} (hk : k < 80) :
    scanFractions.get? k = some ((20 + (k : ℚ)) / 100) := by
  unfold scanFractions
  rw [List.get?_eq_getElem?, List.getElem?_map, List.getElem?_range hk]
  rfl

/-- The derived columns are recomputed from Price and RentEstimate only, so
recomputing a row that was already computed at some other fraction gives
the same result as computing the original row. -/
theorem computeRow_computeRow (interest_rate : ℚ) (loan_months : ℕ)
    (monthly_insurance d d' : ℚ) (r : PropertyRow) :
    computeRow interest_rate loan_months monthly_insurance d
        (computeRow interest_rate loan_months monthly_insurance d' r) =
      computeRow interest_rate loan_months monthly_insurance d r := rfl

/-- C4: on a record computed at 20% down, the break-even search passes a
positive record through at exactly 0.20 with no further search, and for a
non-positive record any emitted result comes from the first scanned
fraction 0.20 + k/100 (k ≥ 1) whose recomputed cash flow is positive: every
earlier fraction — in particular the reported fraction minus 0.01 — gives a
non-positive recomputed cash flow, and the emitted row is the row
recomputed at the accepted fraction. -/
theorem c4_first_positive_fraction (interest_rate : ℚ) (loan_months : ℕ)
    (monthly_insurance : ℚ) (r0 : PropertyRow) :
    (0 < (computeRow interest_rate loan_months monthly_insurance (20 / 100) r0).MonthlyCashFlow →
      breakEvenForRow interest_rate loan_months monthly_insurance
          (computeRow interest_rate loan_months monthly_insurance (20 / 100) r0) =
        some ⟨computeRow interest_rate loan_months monthly_insurance (20 / 100) r0, 20 / 100,
          round2 (20 / 100 * (computeRow interest_rate loan_months monthly_insurance (20 / 100) r0).Price)⟩) ∧
    (¬ 0 < (computeRow interest_rate loan_months monthly_insurance (20 / 100) r0).MonthlyCashFlow →
      ∀ b : BreakEvenRow,
        breakEvenForRow interest_rate loan_months monthly_insurance
            (computeRow interest_rate loan_months monthly_insurance (20 / 100) r0) = some b →
        ∃ k : ℕ, 1 ≤ k ∧ k < 80 ∧
          b.DownPaymentPercent = (20 + (k : ℚ)) / 100 ∧
          b.row = computeRow interest_rate loan_months monthly_insurance ((20 + (k : ℚ)) / 100) r0 ∧
          0 < (computeRow interest_rate loan_months monthly_insurance ((20 + (k : ℚ)) / 100) r0).MonthlyCashFlow ∧
          ¬ 0 < (computeRow interest_rate loan_months monthly_insurance ((20 + (k : ℚ)) / 100 - 1 / 100) r0).MonthlyCashFlow ∧
          ∀ j : ℕ, j < k →
            ¬ 0 < (computeRow interest_rate loan_months monthly_insurance ((20 + (j : ℚ)) / 100) r0).MonthlyCashFlow) := by
  constructor
  · intro hpos
    unfold breakEvenForRow
    rw [if_pos hpos]
  · intro hneg b heq
    unfold breakEvenForRow at heq
    rw [if_neg hneg] at heq
    cases hfind : scanFractions.find? fun d =>
        decide (0 < (computeRow interest_rate loan_months monthly_insurance d
          (computeRow interest_rate loan_months monthly_insurance (20 / 100) r0)).MonthlyCashFlow) with
    | none =>
      rw [hfind] at heq
      simp at heq
    | some d =>
      rw [hfind] at heq
      simp only [Option.map_some'] at heq
      injection heq with heqb
      subst heqb
      obtain ⟨n, hget, hq, hmin⟩ := find?_first _ _ _ hfind
      have hn80 : n < 80 := by
        have h1 := List.get?_eq_some.mp hget
        obtain ⟨hlt, _⟩ := h1
        rwa [scanFractions_length] at hlt
      have hd : d = (20 + (n : ℚ)) / 100 := by
        rw [scanFractions_get? hn80] at hget
        injection hget with hget
        exact hget.symm
      simp only [decide_eq_true_eq, computeRow_computeRow] at hq
      have hminQ : ∀ j : ℕ, j < n →
          ¬ 0 < (computeRow interest_rate loan_months monthly_insurance ((20 + (j : ℚ)) / 100) r0).MonthlyCashFlow := by
        intro j hj
        have := hmin j (by omega) _ (scanFractions_get? (by omega))
        simp only [decide_eq_false_iff_not, computeRow_computeRow] at this
        exact this
      have hn1 : 1 ≤ n := by
        rcases Nat.eq_zero_or_pos n with rfl | h
        · exfalso
          apply hneg
          have : ((20 + ((0 : ℕ) : ℚ)) / 100) = (20 / 100 : ℚ) := by norm_num
          rw [hd, this] at hq
          exact hq
        · exact h
      refine ⟨n, hn1, hn80, ?_, ?_, ?_, ?_, hminQ⟩
      · show round2 d = (20 + (n : ℚ)) / 100
        rw [hd, round2_scan]
      · show computeRow interest_rate loan_months monthly_insurance d
            (computeRow interest_rate loan_months monthly_insurance (20 / 100) r0) =
          computeRow interest_rate loan_months monthly_insurance ((20 + (n : ℚ)) / 100) r0
        rw [hd]
        exact computeRow_computeRow _ _ _ _ _ _
      · rw [hd] at hq
        exact hq
      · have hstep : (20 + (n : ℚ)) / 100 - 1 / 100 = (20 + ((n - 1 : ℕ) : ℚ)) / 100 := by
          have : ((n - 1 : ℕ) : ℚ) = (n : ℚ) - 1 := by
            push_cast [Nat.cast_sub hn1]
            ring
          rw [this]
          ring
        rw [hstep]
        exact hminQ (n - 1) (by omega)

/-!
## ProjectionSimulator: calculate_investment_projections (app.py lines 32-171)

The source appends one dict per year, rounding every numeric entry with
round(x, 2) as it is stored.  The embedding computes the raw (unrounded)
record first (yearRecordOf) and applies the rounding to every field
afterwards (roundRecord); the composition emits exactly the source's
values.  The inner 12-month loop is month_step iterated twelve times; the
two extra-principal components are loop-invariant within a year (the gross
cash flow is computed once per year in the source), so their sum is the
single parameter extra of month_step.
-/

/-- The argument record of calculate_investment_projections. -/
structure ProjInputs where
  purchase_price : ℚ
  down_payment_pct : ℚ
  interest_rate : ℚ
  loan_years : ℕ
  monthly_insurance : ℚ
  annual_tax_rate : ℚ
  monthly_rent : ℚ
  vacancy_rate : ℚ
  annual_appreciation : ℚ
  annual_rent_increase : ℚ
  holding_years : ℕ
  initial_repairs : ℚ
  ongoing_maintenance_pct : ℚ
  extra_payment_monthly : ℚ
  cashflow_to_principal_pct : ℚ
deriving DecidableEq

def down_payment (p : ProjInputs) : ℚ := p.purchase_price * p.down_payment_pct

def loan_amount (p : ProjInputs) : ℚ := p.purchase_price - down_payment p

def monthly_rate (p : ProjInputs) : ℚ := p.interest_rate / 12

def total_months (p : ProjInputs) : ℕ := p.loan_years * 12

/-- The fixed payment (app.py lines 57-61): the level-payment formula when
the rate is positive, straight-line otherwise. -/
def monthly_mortgage (p : ProjInputs) : ℚ :=
  if 0 < p.interest_rate then
    (loan_amount p * (monthly_rate p * (1 + monthly_rate p) ^ total_months p)) /
      ((1 + monthly_rate p) ^ total_months p - 1)
  else loan_amount p / (total_months p : ℚ)

def total_cash_invested (p : ProjInputs) : ℚ := down_payment p + p.initial_repairs

/-- The state of the inner month loop (app.py lines 92-122): the working
balance and the two running totals of the year. -/
structure MonthAcc where
  temp_balance : ℚ
  principal_paid : ℚ
  total_extra_principal : ℚ
deriving DecidableEq

/-- One iteration of the month loop (app.py lines 96-122).  The parameter
extra is extra_payment_monthly + the cash-flow-derived part, both constant
across the year's months. -/
def month_step (p : ProjInputs) (extra : ℚ) (s : MonthAcc) : MonthAcc :=
  if 0 < s.temp_balance then
    let interest_payment := s.temp_balance * monthly_rate p
    let principal_payment := monthly_mortgage p - interest_payment
    let total_extra := min extra (s.temp_balance - principal_payment)
    let new_balance := s.temp_balance - (principal_payment + total_extra)
    { temp_balance := if new_balance < 0 then 0 else new_balance
      principal_paid := s.principal_paid + (principal_payment + total_extra)
      total_extra_principal := s.total_extra_principal + total_extra }
  else s

/-- The state carried from one simulated year to the next
(app.py lines 63-69). -/
structure YearState where
  current_property_value : ℚ
  current_monthly_rent : ℚ
  remaining_balance : ℚ
  cumulative_cash_flow : ℚ
  cumulative_extra_principal : ℚ
deriving DecidableEq

/-- Property value used in a given year (app.py lines 76-77): appreciated
once from year 2 on, the original value in year 1. -/
def appreciated_value (p : ProjInputs) (year : ℕ) (s : YearState) : ℚ :=
  if 1 < year then s.current_property_value * (1 + p.annual_appreciation)
  else s.current_property_value

/-- Monthly rent used in a given year (app.py line 78). -/
def grown_rent (p : ProjInputs) (year : ℕ) (s : YearState) : ℚ :=
  if 1 < year then s.current_monthly_rent * (1 + p.annual_rent_increase)
  else s.current_monthly_rent

/-- monthly_cash_flow_gross of app.py lines 81-89. -/
def monthly_cash_flow_gross (p : ProjInputs) (year : ℕ) (s : YearState) : ℚ :=
  grown_rent p year s * (1 - p.vacancy_rate) -
    (monthly_mortgage p + appreciated_value p year s * p.annual_tax_rate / 12 +
      p.monthly_insurance + p.purchase_price * p.ongoing_maintenance_pct / 12)

/-- The constant extra-principal amount of a year's months (app.py lines
102-108): the fixed monthly extra plus, when the gross cash flow is
positive, its diverted fraction. -/
def extra_raw (p : ProjInputs) (gross : ℚ) : ℚ :=
  p.extra_payment_monthly + (if 0 < gross then gross * p.cashflow_to_principal_pct else 0)

/-- The result of a year's 12-month loop started from the year's opening
balance (app.py lines 92-124). -/
def year_months (p : ProjInputs) (year : ℕ) (s : YearState) : MonthAcc :=
  (month_step p (extra_raw p (monthly_cash_flow_gross p year s)))^[12]
    ⟨s.remaining_balance, 0, 0⟩

/-- annual_cash_flow of app.py line 128: money actually received, gross
cash flow less what was diverted to extra principal. -/
def annual_cash_flow (p : ProjInputs) (year : ℕ) (s : YearState) : ℚ :=
  monthly_cash_flow_gross p year s * 12 - (year_months p year s).total_extra_principal

/-- The year-to-year state update (app.py lines 76-78, 124-125, 135). -/
def yearStateNext (p : ProjInputs) (year : ℕ) (s : YearState) : YearState :=
  { current_property_value := appreciated_value p year s
    current_monthly_rent := grown_rent p year s
    remaining_balance := (year_months p year s).temp_balance
    cumulative_cash_flow := s.cumulative_cash_flow + annual_cash_flow p year s
    cumulative_extra_principal :=
      s.cumulative_extra_principal + (year_months p year s).total_extra_principal }

/-- One emitted projection record, with the raw (unrounded) values of the
dict of app.py lines 153-169. -/
structure YearRecord where
  Year : ℕ
  PropertyValue : ℚ
  MonthlyRent : ℚ
  MonthlyCashFlow : ℚ
  AnnualCashFlow : ℚ
  CumulativeCashFlow : ℚ
  LoanBalance : ℚ
  PrincipalPaid : ℚ
  ExtraPrincipalThisYear : ℚ
  CumulativeExtraPrincipal : ℚ
  Equity : ℚ
  CashOnCashReturn : ℚ
  TotalROI : ℚ
  NetProceedsIfSold : ℚ
  TotalProfit : ℚ
deriving DecidableEq

/-- The raw record of one simulated year (app.py lines 126-169 before the
per-field round(x, 2) of the append). -/
def yearRecordOf (p : ProjInputs) (year : ℕ) (s : YearState) : YearRecord :=
  { Year := year
    PropertyValue := appreciated_value p year s
    MonthlyRent := grown_rent p year s
    MonthlyCashFlow := annual_cash_flow p year s / 12
    AnnualCashFlow := annual_cash_flow p year s
    CumulativeCashFlow := s.cumulative_cash_flow + annual_cash_flow p year s
    LoanBalance := (year_months p year s).temp_balance
    PrincipalPaid := (year_months p year s).principal_paid
    ExtraPrincipalThisYear := (year_months p year s).total_extra_principal
    CumulativeExtraPrincipal :=
      s.cumulative_extra_principal + (year_months p year s).total_extra_principal
    Equity := appreciated_value p year s - (year_months p year s).temp_balance
    CashOnCashReturn :=
      if 0 < total_cash_invested p then
        annual_cash_flow p year s / total_cash_invested p * 100
      else 0
    TotalROI :=
      if 0 < total_cash_invested p +
          (s.cumulative_extra_principal + (year_months p year s).total_extra_principal) then
        (s.cumulative_cash_flow + annual_cash_flow p year s +
            (appreciated_value p year s - (year_months p year s).temp_balance) -
            (total_cash_invested p +
              (s.cumulative_extra_principal + (year_months p year s).total_extra_principal))) /
          (total_cash_invested p +
            (s.cumulative_extra_principal + (year_months p year s).total_extra_principal)) * 100
      else 0
    NetProceedsIfSold :=
      appreciated_value p year s - (year_months p year s).temp_balance -
        appreciated_value p year s * (6 / 100)
    TotalProfit :=
      (appreciated_value p year s - (year_months p year s).temp_balance -
          appreciated_value p year s * (6 / 100)) +
        (s.cumulative_cash_flow + annual_cash_flow p year s) -
        (total_cash_invested p +
          (s.cumulative_extra_principal + (year_months p year s).total_extra_principal)) }

/-- The per-field rounding applied as each record is appended. -/
def roundRecord (r : YearRecord) : YearRecord :=
  { Year := r.Year
    PropertyValue := round2 r.PropertyValue
    MonthlyRent := round2 r.MonthlyRent
    MonthlyCashFlow := round2 r.MonthlyCashFlow
    AnnualCashFlow := round2 r.AnnualCashFlow
    CumulativeCashFlow := round2 r.CumulativeCashFlow
    LoanBalance := round2 r.LoanBalance
    PrincipalPaid := round2 r.PrincipalPaid
    ExtraPrincipalThisYear := round2 r.ExtraPrincipalThisYear
    CumulativeExtraPrincipal := round2 r.CumulativeExtraPrincipal
    Equity := round2 r.Equity
    CashOnCashReturn := round2 r.CashOnCashReturn
    TotalROI := round2 r.TotalROI
    NetProceedsIfSold := round2 r.NetProceedsIfSold
    TotalProfit := round2 r.TotalProfit }

/-- The year loop (app.py line 71), fuel counting the years still to run. -/
def projApplyRaw (p : ProjInputs) : ℕ → ℕ → YearState → List YearRecord
  | 0, _, _ => []
  | fuel + 1, year, s =>
    yearRecordOf p year s :: projApplyRaw p fuel (year + 1) (yearStateNext p year s)

/-- The starting values of app.py lines 63-69. -/
def initState (p : ProjInputs) : YearState :=
  ⟨p.purchase_price, p.monthly_rent, loan_amount p, 0, 0⟩

/-- The projection list with unrounded entries. -/
def rawProjections (p : ProjInputs) : List YearRecord :=
  projApplyRaw p p.holding_years 1 (initState p)

/-- calculate_investment_projections: the emitted records, every numeric
field rounded to 2 decimals exactly as the source stores them. -/
def calculate_investment_projections (p : ProjInputs) : List YearRecord :=
  (rawProjections p).map roundRecord

/-- The year-state reached after running n years starting from state s in
calendar year `year`. -/
def stateFrom (p : ProjInputs) (year : ℕ) (s : YearState) : ℕ → YearState
  | 0 => s
  | n + 1 => yearStateNext p (year + n) (stateFrom p year s n)

/-- The state of the actual run after n full years. -/
def runState (p : ProjInputs) (n : ℕ) : YearState := stateFrom p 1 (initState p) n

/-- The raw record of the run's year n+1 (0-indexed position n). -/
def rawRecord (p : ProjInputs) (n : ℕ) : YearRecord :=
  yearRecordOf p (1 + n) (runState p n)

theorem stateFrom_shift (p : ProjInputs) (year : ℕ) (s : YearState) :
    ∀ n, stateFrom p (year + 1) (yearStateNext p year s) n = stateFrom p year s (n + 1) := by
  intro n
  induction n with
  | zero => rfl
  | succ m ih =>
    show yearStateNext p (year + 1 + m) (stateFrom p (year + 1) (yearStateNext p year s) m) =
      yearStateNext p (year + (m + 1)) (stateFrom p year s (m + 1))
    have h : year + 1 + m = year + (m + 1) := by omega
    rw [h, ih]

theorem projApplyRaw_length (p : ProjInputs) :
    ∀ (fuel year : ℕ) (s : YearState), (projApplyRaw p fuel year s).length = fuel := by
  intro fuel
  induction fuel with
  | zero => intro year s; rfl
  | succ f ih =>
    intro year s
    show (projApplyRaw p f (year + 1) (yearStateNext p year s)).length + 1 = f + 1
    rw [ih]

theorem projApplyRaw_get? (p : ProjInputs) :
    ∀ (fuel n year : ℕ) (s : YearState), n < fuel →
      (projApplyRaw p fuel year s).get? n =
        some (yearRecordOf p (year + n) (stateFrom p year s n)) := by
  intro fuel
  induction fuel with
  | zero => intro n year s hn; omega
  | succ f ih =>
    intro n year s hn
    cases n with
    | zero => rfl
    | succ m =>
      show (projApplyRaw p f (year + 1) (yearStateNext p year s)).get? m = _
      rw [ih m (year + 1) _ (by omega), stateFrom_shift]
      have h : year + 1 + m = year + (m + 1) := by omega
      rw [h]

theorem rawProjections_length (p : ProjInputs) :
    (rawProjections p).length = p.holding_years := projApplyRaw_length p _ _ _

theorem rawProjections_get? (p : ProjInputs) {n : ℕ} (hn : n < p.holding_years) :
    (rawProjections p).get? n = some (rawRecord p n) :=
  projApplyRaw_get? p _ n 1 _ hn

theorem proj_length (p : ProjInputs) :
    (calculate_investment_projections p).length = p.holding_years := by
  unfold calculate_investment_projections
  rw [List.length_map, rawProjections_length]

theorem proj_get? (p : ProjInputs) {n : ℕ} (hn : n < p.holding_years) :
    (calculate_investment_projections p).get? n = some (roundRecord (rawRecord p n)) := by
  unfold calculate_investment_projections
  rw [List.get?_eq_getElem?, List.getElem?_map, ← List.get?_eq_getElem?,
    rawProjections_get? p hn]
  rfl

/-- The input ranges enforced by the calling layer's widgets (app.py lines
185-306): non-negative rate, a loan term of at least a year, non-negative
price, a down-payment fraction between 0 and 1, and non-negative
extra-principal settings. -/
def GoodInputs (p : ProjInputs) : Prop :=
  0 ≤ p.interest_rate ∧ 1 ≤ p.loan_years ∧ 0 ≤ p.purchase_price ∧
    0 ≤ p.down_payment_pct ∧ p.down_payment_pct ≤ 1 ∧
    0 ≤ p.extra_payment_monthly ∧ 0 ≤ p.cashflow_to_principal_pct

instance (p : ProjInputs) : Decidable (GoodInputs p) := by
  unfold GoodInputs
  infer_instance

theorem loan_amount_nonneg {p : ProjInputs} (h : GoodInputs p) : 0 ≤ loan_amount p := by
  obtain ⟨-, -, hp, hd0, hd1, -, -⟩ := h
  unfold loan_amount down_payment
  nlinarith

/-- The scheduled payment covers the interest on any balance not exceeding
the loan amount: the principal portion of the split is non-negative. -/
theorem principal_payment_nonneg {p : ProjInputs} (h : GoodInputs p) {b : ℚ}
    (_hb0 : 0 ≤ b) (hbL : b ≤ loan_amount p) :
    0 ≤ monthly_mortgage p - b * monthly_rate p := by
  have hL : 0 ≤ loan_amount p := loan_amount_nonneg h
  obtain ⟨hr, hy, -, -, -, -, -⟩ := h
  unfold monthly_mortgage
  by_cases hpos : 0 < p.interest_rate
  · rw [if_pos hpos]
    have hi0 : 0 < monthly_rate p := by
      unfold monthly_rate
      positivity
    have hq1 : 1 < (1 + monthly_rate p) ^ total_months p := by
      have hm : total_months p ≠ 0 := by
        unfold total_months
        omega
      exact one_lt_pow₀ (by linarith) hm
    set q := (1 + monthly_rate p) ^ total_months p with hqdef
    have key : loan_amount p * monthly_rate p ≤
        loan_amount p * (monthly_rate p * q) / (q - 1) := by
      rw [le_div_iff₀ (by linarith)]
      nlinarith [mul_nonneg hL hi0.le]
    have hb' : b * monthly_rate p ≤ loan_amount p * monthly_rate p :=
      mul_le_mul_of_nonneg_right hbL hi0.le
    linarith
  · rw [if_neg hpos]
    have hz : p.interest_rate = 0 := le_antisymm (not_lt.mp hpos) hr
    have hmz : monthly_rate p = 0 := by
      unfold monthly_rate
      rw [hz]
      norm_num
    rw [hmz, mul_zero, sub_zero]
    positivity

theorem extra_raw_nonneg {p : ProjInputs} (h : GoodInputs p) (gross : ℚ) :
    0 ≤ extra_raw p gross := by
  obtain ⟨-, -, -, -, -, he, hc⟩ := h
  unfold extra_raw
  by_cases hg : 0 < gross
  · rw [if_pos hg]
    have := mul_nonneg hg.le hc
    linarith
  · rw [if_neg hg]
    linarith

/-- One month of the loop neither increases the working balance nor drives
it negative, as long as the balance stays within the original loan. -/
theorem month_step_balance {p : ProjInputs} (h : GoodInputs p) {extra : ℚ}
    (he : 0 ≤ extra) {s : MonthAcc} (hb0 : 0 ≤ s.temp_balance)
    (hbL : s.temp_balance ≤ loan_amount p) :
    0 ≤ (month_step p extra s).temp_balance ∧
      (month_step p extra s).temp_balance ≤ s.temp_balance := by
  unfold month_step
  by_cases hpos : 0 < s.temp_balance
  · rw [if_pos hpos]
    simp only
    set b := s.temp_balance with hbdef
    set pp := monthly_mortgage p - b * monthly_rate p with hpp
    have hpp0 : 0 ≤ pp := principal_payment_nonneg h hb0 hbL
    set te := min extra (b - pp) with hte
    set nb := b - (pp + te) with hnb
    constructor
    · by_cases hneg : nb < 0
      · rw [if_pos hneg]
      · rw [if_neg hneg]
        linarith [not_lt.mp hneg]
    · by_cases hneg : nb < 0
      · rw [if_pos hneg]
        exact hb0
      · rw [if_neg hneg]
        have h1 : 0 ≤ pp + te := by
          rcases le_total extra (b - pp) with h' | h'
          · rw [hte, min_eq_left h']
            linarith
          · rw [hte, min_eq_right h']
            linarith
        linarith [hnb]
  · rw [if_neg hpos]
    exact ⟨hb0, le_refl _⟩

/-- Iterating the month step keeps the balance in [0, the starting
balance], monthly non-increasing. -/
theorem month_iter_balance {p : ProjInputs} (h : GoodInputs p) {extra : ℚ}
    (he : 0 ≤ extra) {b0 : ℚ} (hb0 : 0 ≤ b0) (hbL : b0 ≤ loan_amount p) :
    ∀ k : ℕ,
      (0 ≤ ((month_step p extra)^[k] ⟨b0, 0, 0⟩).temp_balance ∧
        ((month_step p extra)^[k] ⟨b0, 0, 0⟩).temp_balance ≤ b0) ∧
      ((month_step p extra)^[k + 1] ⟨b0, 0, 0⟩).temp_balance ≤
        ((month_step p extra)^[k] ⟨b0, 0, 0⟩).temp_balance := by
  intro k
  induction k with
  | zero =>
    refine ⟨⟨hb0, le_refl _⟩, ?_⟩
    rw [Function.iterate_one]
    exact (month_step_balance h he hb0 hbL).2
  | succ m ih =>
    obtain ⟨⟨h0, hle⟩, hstep⟩ := ih
    have hnext0 : 0 ≤ ((month_step p extra)^[m + 1] ⟨b0, 0, 0⟩).temp_balance := by
      rw [Function.iterate_succ_apply']
      exact (month_step_balance h he h0 (le_trans hle hbL)).1
    refine ⟨⟨hnext0, le_trans hstep hle⟩, ?_⟩
    rw [Function.iterate_succ_apply' (month_step p extra) (m + 1)]
    exact (month_step_balance h he hnext0 (le_trans (le_trans hstep hle) hbL)).2

theorem year_months_balance {p : ProjInputs} (h : GoodInputs p) (year : ℕ)
    {s : YearState} (hb0 : 0 ≤ s.remaining_balance)
    (hbL : s.remaining_balance ≤ loan_amount p) :
    0 ≤ (year_months p year s).temp_balance ∧
      (year_months p year s).temp_balance ≤ s.remaining_balance := by
  unfold year_months
  exact (month_iter_balance h (extra_raw_nonneg h _) hb0 hbL 12).1

theorem runState_zero (p : ProjInputs) : runState p 0 = initState p := rfl

theorem runState_succ (p : ProjInputs) (n : ℕ) :
    runState p (n + 1) = yearStateNext p (1 + n) (runState p n) := rfl

theorem yearStateNext_balance (p : ProjInputs) (year : ℕ) (s : YearState) :
    (yearStateNext p year s).remaining_balance = (year_months p year s).temp_balance := rfl

theorem initState_balance (p : ProjInputs) :
    (initState p).remaining_balance = loan_amount p := rfl

/-- The run's year-end balances stay in [0, loan amount] and are
non-increasing from year to year. -/
theorem runState_balance {p : ProjInputs} (h : GoodInputs p) :
    ∀ n : ℕ,
      (0 ≤ (runState p n).remaining_balance ∧
        (runState p n).remaining_balance ≤ loan_amount p) ∧
      (runState p (n + 1)).remaining_balance ≤ (runState p n).remaining_balance := by
  intro n
  induction n with
  | zero =>
    refine ⟨⟨?_, ?_⟩, ?_⟩
    · rw [runState_zero, initState_balance]
      exact loan_amount_nonneg h
    · rw [runState_zero, initState_balance]
    · rw [runState_succ, yearStateNext_balance, runState_zero]
      refine (year_months_balance h (1 + 0) ?_ ?_).2
      · rw [initState_balance]
        exact loan_amount_nonneg h
      · rw [initState_balance]
  | succ m ih =>
    obtain ⟨⟨h0, hL⟩, hstep⟩ := ih
    have h0' : 0 ≤ (runState p (m + 1)).remaining_balance := by
      rw [runState_succ, yearStateNext_balance]
      exact (year_months_balance h (1 + m) h0 hL).1
    have hL' : (runState p (m + 1)).remaining_balance ≤ loan_amount p :=
      le_trans hstep hL
    refine ⟨⟨h0', hL'⟩, ?_⟩
    rw [runState_succ p (m + 1), yearStateNext_balance]
    exact (year_months_balance h (1 + (m + 1)) h0' hL').2

theorem runState_balance_mono {p : ProjInputs} (h : GoodInputs p) :
    ∀ n k : ℕ, (runState p (n + k)).remaining_balance ≤ (runState p n).remaining_balance := by
  intro n k
  induction k with
  | zero => exact le_refl _
  | succ m ih => exact le_trans ((runState_balance h (n + m)).2) ih

theorem rawRecord_LoanBalance (p : ProjInputs) (n : ℕ) :
    (rawRecord p n).LoanBalance = (runState p (n + 1)).remaining_balance := rfl

theorem rawRecord_PrincipalPaid (p : ProjInputs) (n : ℕ) :
    (rawRecord p n).PrincipalPaid = (year_months p (1 + n) (runState p n)).principal_paid := rfl

theorem rawRecord_Extra (p : ProjInputs) (n : ℕ) :
    (rawRecord p n).ExtraPrincipalThisYear =
      (year_months p (1 + n) (runState p n)).total_extra_principal := rfl

theorem rawRecord_CumCF (p : ProjInputs) (n : ℕ) :
    (rawRecord p n).CumulativeCashFlow = (runState p (n + 1)).cumulative_cash_flow := rfl

theorem rawRecord_CumExtra (p : ProjInputs) (n : ℕ) :
    (rawRecord p n).CumulativeExtraPrincipal =
      (runState p (n + 1)).cumulative_extra_principal := rfl

theorem rawRecord_Annual (p : ProjInputs) (n : ℕ) :
    (rawRecord p n).AnnualCashFlow = annual_cash_flow p (1 + n) (runState p n) := rfl

theorem runState_cumCF_succ (p : ProjInputs) (n : ℕ) :
    (runState p (n + 1)).cumulative_cash_flow =
      (runState p n).cumulative_cash_flow + annual_cash_flow p (1 + n) (runState p n) := rfl

theorem runState_cumExtra_succ (p : ProjInputs) (n : ℕ) :
    (runState p (n + 1)).cumulative_extra_principal =
      (runState p n).cumulative_extra_principal +
        (year_months p (1 + n) (runState p n)).total_extra_principal := rfl

theorem roundRecord_LoanBalance (r : YearRecord) :
    (roundRecord r).LoanBalance = round2 r.LoanBalance := rfl

/-- A month with a zero working balance is skipped entirely. -/
theorem month_step_zero (p : ProjInputs) (extra : ℚ) :
    month_step p extra ⟨0, 0, 0⟩ = ⟨0, 0, 0⟩ := by
  unfold month_step
  norm_num

/-- A year opened with a zero balance pays no principal, no extra, and no
interest: the whole month loop is skipped. -/
theorem year_months_zero (p : ProjInputs) (year : ℕ) {s : YearState}
    (h : s.remaining_balance = 0) : year_months p year s = ⟨0, 0, 0⟩ := by
  unfold year_months
  rw [h]
  have hiter : ∀ k : ℕ,
      (month_step p (extra_raw p (monthly_cash_flow_gross p year s)))^[k] ⟨0, 0, 0⟩ =
        ⟨0, 0, 0⟩ := by
    intro k
    induction k with
    | zero => rfl
    | succ m ih => rw [Function.iterate_succ_apply', ih, month_step_zero]
  exact hiter 12

theorem runState_zero_persists {p : ProjInputs} {n : ℕ}
    (h : (runState p (n + 1)).remaining_balance = 0) :
    ∀ k : ℕ, (runState p (n + 1 + k)).remaining_balance = 0 := by
  intro k
  induction k with
  | zero => exact h
  | succ m ih =>
    have harith : n + 1 + (m + 1) = (n + 1 + m) + 1 := by omega
    rw [harith, runState_succ, yearStateNext_balance, year_months_zero _ _ ih]

/-- The conclusions of claim C6 for one input record. -/
def c6Prop (p : ProjInputs) : Prop :=
  (∀ extra b0 : ℚ, 0 ≤ extra → 0 ≤ b0 → b0 ≤ loan_amount p → ∀ k : ℕ,
      0 ≤ ((month_step p extra)^[k] ⟨b0, 0, 0⟩).temp_balance ∧
        ((month_step p extra)^[k + 1] ⟨b0, 0, 0⟩).temp_balance ≤
          ((month_step p extra)^[k] ⟨b0, 0, 0⟩).temp_balance) ∧
  (∀ n m : ℕ, n ≤ m → (rawRecord p m).LoanBalance ≤ (rawRecord p n).LoanBalance) ∧
  (∀ n : ℕ, 0 ≤ (rawRecord p n).LoanBalance) ∧
  (∀ n m : ℕ, n < m → (rawRecord p n).LoanBalance = 0 →
      (rawRecord p m).LoanBalance = 0 ∧ (rawRecord p m).PrincipalPaid = 0 ∧
        (rawRecord p m).ExtraPrincipalThisYear = 0) ∧
  ((calculate_investment_projections p).Pairwise fun a b => b.LoanBalance ≤ a.LoanBalance) ∧
  (∀ r ∈ calculate_investment_projections p, 0 ≤ r.LoanBalance)

/-- The emitted records are the composition of rounding with the raw
records, positionally. -/
theorem proj_get_eq (p : ProjInputs) (i : Fin (calculate_investment_projections p).length) :
    (calculate_investment_projections p).get i = roundRecord (rawRecord p i.1) := by
  have hi : (i : ℕ) < p.holding_years := lt_of_lt_of_eq i.2 (proj_length p)
  have h1 := proj_get? p hi
  rw [List.get?_eq_get i.2] at h1
  injection h1

/-- C6: the working loan balance is non-increasing month to month within a
year and never negative; the year-end balances of the raw records are
non-increasing and non-negative; once a year ends with balance exactly 0,
every later year has balance 0, zero principal paid and zero extra
principal (its months are skipped, so no interest accrues either); and the
emitted rounded records inherit the ordering and non-negativity. -/
theorem c6_balance_monotone_nonnegative (p : ProjInputs) (h : GoodInputs p) : c6Prop p := by
  refine ⟨?_, ?_, ?_, ?_, ?_, ?_⟩
  · intro extra b0 he hb0 hbL k
    exact ⟨((month_iter_balance h he hb0 hbL) k).1.1, ((month_iter_balance h he hb0 hbL) k).2⟩
  · intro n m hnm
    rw [rawRecord_LoanBalance, rawRecord_LoanBalance]
    have harith : m + 1 = (n + 1) + (m - n) := by omega
    rw [harith]
    exact runState_balance_mono h (n + 1) (m - n)
  · intro n
    rw [rawRecord_LoanBalance]
    exact ((runState_balance h (n + 1)).1).1
  · intro n m hnm hzero
    rw [rawRecord_LoanBalance] at hzero
    have hm1 : (runState p (m + 1)).remaining_balance = 0 := by
      have harith : m + 1 = n + 1 + (m - n) := by omega
      rw [harith]
      exact runState_zero_persists hzero (m - n)
    have hm0 : (runState p m).remaining_balance = 0 := by
      have harith : m = n + 1 + (m - n - 1) := by omega
      rw [harith]
      exact runState_zero_persists hzero (m - n - 1)
    refine ⟨by rw [rawRecord_LoanBalance]; exact hm1, ?_, ?_⟩
    · rw [rawRecord_PrincipalPaid, year_months_zero _ _ hm0]
    · rw [rawRecord_Extra, year_months_zero _ _ hm0]
  · rw [List.pairwise_iff_get]
    intro i j hij
    rw [proj_get_eq, proj_get_eq, roundRecord_LoanBalance, roundRecord_LoanBalance]
    apply round2_mono
    rw [rawRecord_LoanBalance, rawRecord_LoanBalance]
    have harith : (j : ℕ) + 1 = (i + 1) + (j - i) := by
      have := Fin.lt_iff_val_lt_val.mp hij
      omega
    rw [harith]
    exact runState_balance_mono h (i + 1) (j - i)
  · intro r hr
    obtain ⟨i, hi⟩ := List.mem_iff_get.mp hr
    rw [← hi, proj_get_eq, roundRecord_LoanBalance]
    apply round2_nonneg
    rw [rawRecord_LoanBalance]
    exact ((runState_balance h (i + 1)).1).1

theorem runState_pv_closed (p : ProjInputs) :
    ∀ n : ℕ, (runState p (n + 1)).current_property_value =
      p.purchase_price * (1 + p.annual_appreciation) ^ n := by
  intro n
  induction n with
  | zero =>
    show appreciated_value p (1 + 0) (initState p) = _
    unfold appreciated_value
    rw [if_neg (by omega)]
    show p.purchase_price = _
    rw [pow_zero, mul_one]
  | succ m ih =>
    show appreciated_value p (1 + (m + 1)) (runState p (m + 1)) = _
    unfold appreciated_value
    rw [if_pos (by omega), ih, pow_succ]
    ring

theorem runState_rent_closed (p : ProjInputs) :
    ∀ n : ℕ, (runState p (n + 1)).current_monthly_rent =
      p.monthly_rent * (1 + p.annual_rent_increase) ^ n := by
  intro n
  induction n with
  | zero =>
    show grown_rent p (1 + 0) (initState p) = _
    unfold grown_rent
    rw [if_neg (by omega)]
    show p.monthly_rent = _
    rw [pow_zero, mul_one]
  | succ m ih =>
    show grown_rent p (1 + (m + 1)) (runState p (m + 1)) = _
    unfold grown_rent
    rw [if_pos (by omega), ih, pow_succ]
    ring

theorem rawRecord_pv (p : ProjInputs) (n : ℕ) :
    (rawRecord p n).PropertyValue = p.purchase_price * (1 + p.annual_appreciation) ^ n :=
  runState_pv_closed p n

theorem rawRecord_rent (p : ProjInputs) (n : ℕ) :
    (rawRecord p n).MonthlyRent = p.monthly_rent * (1 + p.annual_rent_increase) ^ n :=
  runState_rent_closed p n

/-- C7: the record at position n (year n+1) carries the purchase price
compounded n times by the annual appreciation rate and the original rent
compounded n times by the annual rent increase — year 1 (position 0) uses
the original values, and each later year applies exactly one compounding
before its monthly figures; the emitted record rounds these to 2
decimals. -/
theorem c7_annual_compounding (p : ProjInputs) (n : ℕ) (hn : n < p.holding_years) :
    (rawRecord p n).PropertyValue = p.purchase_price * (1 + p.annual_appreciation) ^ n ∧
    (rawRecord p n).MonthlyRent = p.monthly_rent * (1 + p.annual_rent_increase) ^ n ∧
    ∃ r : YearRecord, (calculate_investment_projections p).get? n = some r ∧
      r.PropertyValue = round2 (p.purchase_price * (1 + p.annual_appreciation) ^ n) ∧
      r.MonthlyRent = round2 (p.monthly_rent * (1 + p.annual_rent_increase) ^ n) := by
  refine ⟨rawRecord_pv p n, rawRecord_rent p n, roundRecord (rawRecord p n), proj_get? p hn, ?_, ?_⟩
  · show round2 (rawRecord p n).PropertyValue = _
    rw [rawRecord_pv]
  · show round2 (rawRecord p n).MonthlyRent = _
    rw [rawRecord_rent]

/-- C9: in every year the equity is computed as the current (appreciated)
property value minus the remaining loan balance — exactly at the raw
level, and the emitted record stores the rounding of exactly that
difference. -/
theorem c9_equity_is_value_minus_balance (p : ProjInputs) (n : ℕ) (hn : n < p.holding_years) :
    (rawRecord p n).Equity = (rawRecord p n).PropertyValue - (rawRecord p n).LoanBalance ∧
    ∃ r : YearRecord, (calculate_investment_projections p).get? n = some r ∧
      r.Equity = round2 ((rawRecord p n).PropertyValue - (rawRecord p n).LoanBalance) := by
  refine ⟨rfl, roundRecord (rawRecord p n), proj_get? p hn, rfl⟩

/-- C8: cash-on-cash return divides the year's (net) annual cash flow by
the original cash invested — down payment plus initial repairs, extra
principal excluded — while total ROI divides cumulative cash flow plus
equity minus cumulative cash invested by cumulative cash invested, which
does include all extra principal paid to date; both are scaled by 100 and
rounded on emission. -/
theorem c8_return_denominators (p : ProjInputs) (n : ℕ) (hn : n < p.holding_years)
    (h1 : 0 < down_payment p + p.initial_repairs)
    (h2 : 0 < down_payment p + p.initial_repairs + (rawRecord p n).CumulativeExtraPrincipal) :
    ∃ r : YearRecord, (calculate_investment_projections p).get? n = some r ∧
      r.CashOnCashReturn =
        round2 ((rawRecord p n).AnnualCashFlow / (down_payment p + p.initial_repairs) * 100) ∧
      r.TotalROI =
        round2 (((rawRecord p n).CumulativeCashFlow + (rawRecord p n).Equity -
            (down_payment p + p.initial_repairs + (rawRecord p n).CumulativeExtraPrincipal)) /
          (down_payment p + p.initial_repairs + (rawRecord p n).CumulativeExtraPrincipal) * 100) := by
  have h1' : 0 < total_cash_invested p := h1
  have h2' : 0 < total_cash_invested p +
      ((runState p n).cumulative_extra_principal +
        (year_months p (1 + n) (runState p n)).total_extra_principal) := h2
  refine ⟨roundRecord (rawRecord p n), proj_get? p hn, ?_, ?_⟩
  · show round2 (rawRecord p n).CashOnCashReturn = _
    have hcoc : (rawRecord p n).CashOnCashReturn =
        (rawRecord p n).AnnualCashFlow / (down_payment p + p.initial_repairs) * 100 := by
      show (if 0 < total_cash_invested p then
          annual_cash_flow p (1 + n) (runState p n) / total_cash_invested p * 100
        else 0) = _
      rw [if_pos h1']
      rfl
    rw [hcoc]
  · show round2 (rawRecord p n).TotalROI = _
    have hroi : (rawRecord p n).TotalROI =
        ((rawRecord p n).CumulativeCashFlow + (rawRecord p n).Equity -
            (down_payment p + p.initial_repairs + (rawRecord p n).CumulativeExtraPrincipal)) /
          (down_payment p + p.initial_repairs + (rawRecord p n).CumulativeExtraPrincipal) * 100 := by
      show (if 0 < total_cash_invested p +
            ((runState p n).cumulative_extra_principal +
              (year_months p (1 + n) (runState p n)).total_extra_principal) then _ else 0) = _
      rw [if_pos h2']
      rfl
    rw [hroi]

theorem rawRecord_CumCF_succ (p : ProjInputs) (m : ℕ) :
    (rawRecord p (m + 1)).CumulativeCashFlow =
      (rawRecord p m).CumulativeCashFlow + (rawRecord p (m + 1)).AnnualCashFlow := by
  rw [rawRecord_CumCF, rawRecord_CumCF, rawRecord_Annual, runState_cumCF_succ]

theorem rawRecord_CumExtra_succ (p : ProjInputs) (m : ℕ) :
    (rawRecord p (m + 1)).CumulativeExtraPrincipal =
      (rawRecord p m).CumulativeExtraPrincipal +
        (rawRecord p (m + 1)).ExtraPrincipalThisYear := by
  rw [rawRecord_CumExtra, rawRecord_CumExtra, rawRecord_Extra, runState_cumExtra_succ]

theorem roundRecord_CumCF (r : YearRecord) :
    (roundRecord r).CumulativeCashFlow = round2 r.CumulativeCashFlow := rfl

theorem roundRecord_CumExtra (r : YearRecord) :
    (roundRecord r).CumulativeExtraPrincipal = round2 r.CumulativeExtraPrincipal := rfl

/-- C3 (amended): the cumulative columns advance each year by that year's
annual cash flow, respectively extra principal paid; they are monotonically
non-decreasing in any run whose per-year increments are non-negative.  The
code does not make the increments non-negative by itself: the annual cash
flow is negative whenever expenses exceed effective rent (counterexample
below), and the extra-principal clamp min(extra, balance - principal) can
record a negative amount in a payoff month. -/
theorem c3_amended_monotone_under_nonnegative_increments (p : ProjInputs) :
    ((∀ n : ℕ, n < p.holding_years → 0 ≤ (rawRecord p n).AnnualCashFlow) →
      (calculate_investment_projections p).Pairwise
        fun a b => a.CumulativeCashFlow ≤ b.CumulativeCashFlow) ∧
    ((∀ n : ℕ, n < p.holding_years → 0 ≤ (rawRecord p n).ExtraPrincipalThisYear) →
      (calculate_investment_projections p).Pairwise
        fun a b => a.CumulativeExtraPrincipal ≤ b.CumulativeExtraPrincipal) := by
  constructor
  · intro hann
    have mono : ∀ j : ℕ, j < p.holding_years → ∀ i : ℕ, i ≤ j →
        (rawRecord p i).CumulativeCashFlow ≤ (rawRecord p j).CumulativeCashFlow := by
      intro j
      induction j with
      | zero =>
        intro _ i hi
        have h0 : i = 0 := by omega
        rw [h0]
      | succ m ihm =>
        intro hj i hi
        by_cases hcase : i ≤ m
        · have hstep : (rawRecord p m).CumulativeCashFlow ≤
              (rawRecord p (m + 1)).CumulativeCashFlow := by
            rw [rawRecord_CumCF_succ]
            linarith [hann (m + 1) hj]
          exact le_trans (ihm (by omega) i hcase) hstep
        · have hieq : i = m + 1 := by omega
          rw [hieq]
    rw [List.pairwise_iff_get]
    intro i j hij
    rw [proj_get_eq, proj_get_eq, roundRecord_CumCF, roundRecord_CumCF]
    apply round2_mono
    have hj : (j : ℕ) < p.holding_years := lt_of_lt_of_eq j.2 (proj_length p)
    exact mono j hj i (le_of_lt (Fin.lt_iff_val_lt_val.mp hij))
  · intro hext
    have mono : ∀ j : ℕ, j < p.holding_years → ∀ i : ℕ, i ≤ j →
        (rawRecord p i).CumulativeExtraPrincipal ≤
          (rawRecord p j).CumulativeExtraPrincipal := by
      intro j
      induction j with
      | zero =>
        intro _ i hi
        have h0 : i = 0 := by omega
        rw [h0]
      | succ m ihm =>
        intro hj i hi
        by_cases hcase : i ≤ m
        · have hstep : (rawRecord p m).CumulativeExtraPrincipal ≤
              (rawRecord p (m + 1)).CumulativeExtraPrincipal := by
            rw [rawRecord_CumExtra_succ]
            linarith [hext (m + 1) hj]
          exact le_trans (ihm (by omega) i hcase) hstep
        · have hieq : i = m + 1 := by omega
          rw [hieq]
    rw [List.pairwise_iff_get]
    intro i j hij
    rw [proj_get_eq, proj_get_eq, roundRecord_CumExtra, roundRecord_CumExtra]
    apply round2_mono
    have hj : (j : ℕ) < p.holding_years := lt_of_lt_of_eq j.2 (proj_length p)
    exact mono j hj i (le_of_lt (Fin.lt_iff_val_lt_val.mp hij))

/-- A run in which every year loses money: zero rent, a straight-line
mortgage of 10 a month on a 1200 loan.  All parameter values lie inside the
calling layer's widget ranges. -/
def cexDecline : ProjInputs :=
  { purchase_price := 1200, down_payment_pct := 0, interest_rate := 0, loan_years := 10,
    monthly_insurance := 0, annual_tax_rate := 0, monthly_rent := 0, vacancy_rate := 0,
    annual_appreciation := 0, annual_rent_increase := 0, holding_years := 2,
    initial_repairs := 0, ongoing_maintenance_pct := 0, extra_payment_monthly := 0,
    cashflow_to_principal_pct := 0 }

set_option maxRecDepth 4000 in
/-- C3 fails as stated: in the cexDecline run the emitted cumulative cash
flow is -120 after year 1 and -240 after year 2 — strictly decreasing. -/
theorem c3_counterexample_cumulative_cash_flow_decreases :
    ((calculate_investment_projections cexDecline).map fun r => r.CumulativeCashFlow) =
        [-120, -240] ∧
      ¬ (calculate_investment_projections cexDecline).Pairwise
          (fun a b => a.CumulativeCashFlow ≤ b.CumulativeCashFlow) := by
  constructor
  · with_unfolding_all decide
  · with_unfolding_all decide

/-!
## Concrete instances discharging the hypotheses of the theorems above
-/

/-- A listing with no rent: no down payment in the scanned range can make
it cash-flow positive (used with a 1-month term to keep evaluation small;
the theorems hold for every term). -/
def rNoRent : PropertyRow := ⟨0, 100000, 0, 0, 0, -1⟩

/-- A listing already cash-flow positive at 20% down. -/
def rGoodCF : PropertyRow := ⟨0, 1000, 900, 0, 0, 5⟩

def bGood : BreakEvenRow := ⟨rGoodCF, 20 / 100, 200⟩

/-- A listing positive at 20% down after recomputation. -/
def rHighRent : PropertyRow := ⟨0, 1000, 1000, 0, 0, 0⟩

/-- A listing negative at 20% down but positive at 21% down. -/
def rLowRent : PropertyRow := ⟨0, 1000, 900, 0, 0, 0⟩

def bSearch : BreakEvenRow := ⟨computeRow (6 / 100) 1 100 (21 / 100) rLowRent, 21 / 100, 210⟩

set_option maxRecDepth 16000 in
theorem c1_witness :
    RecordFails (6 / 100) 1 100 rNoRent ∧
      break_even_rows (6 / 100) 1 100 ([rGoodCF] ++ rNoRent :: []) =
        break_even_rows (6 / 100) 1 100 [rGoodCF] ++ break_even_rows (6 / 100) 1 100 [] ∧
      calculate_break_even_down_payment (6 / 100) 1 100 [rNoRent] = none := by
  have hfail : RecordFails (6 / 100) 1 100 rNoRent := by with_unfolding_all decide
  refine ⟨hfail, ?_, ?_⟩
  · exact (c1_all_failing_raises_keyerror (6 / 100) 1 100).1 [rGoodCF] [] rNoRent hfail
  · exact (c1_all_failing_raises_keyerror (6 / 100) 1 100).2 [rNoRent]
      (by intro r hr; rw [List.mem_singleton.mp hr]; exact hfail)

set_option maxRecDepth 16000 in
theorem c10_witness :
    calculate_break_even_down_payment (6 / 100) 1 100 [rGoodCF] = some [bGood] ∧
      bGood ∈ [bGood] ∧ 0 < bGood.row.MonthlyCashFlow := by
  have hres : calculate_break_even_down_payment (6 / 100) 1 100 [rGoodCF] = some [bGood] := by
    with_unfolding_all decide
  exact ⟨hres, List.mem_singleton.mpr rfl,
    c10_output_cash_flow_positive (6 / 100) 1 100 [rGoodCF] [bGood] hres bGood
      (List.mem_singleton.mpr rfl)⟩

set_option maxRecDepth 16000 in
theorem c4_witness :
    (0 < (computeRow (6 / 100) 1 100 (20 / 100) rHighRent).MonthlyCashFlow ∧
      breakEvenForRow (6 / 100) 1 100 (computeRow (6 / 100) 1 100 (20 / 100) rHighRent) =
        some ⟨computeRow (6 / 100) 1 100 (20 / 100) rHighRent, 20 / 100,
          round2 (20 / 100 * (computeRow (6 / 100) 1 100 (20 / 100) rHighRent).Price)⟩) ∧
    (¬ 0 < (computeRow (6 / 100) 1 100 (20 / 100) rLowRent).MonthlyCashFlow ∧
      ∃ k : ℕ, 1 ≤ k ∧ k < 80 ∧
        bSearch.DownPaymentPercent = (20 + (k : ℚ)) / 100 ∧
        bSearch.row = computeRow (6 / 100) 1 100 ((20 + (k : ℚ)) / 100) rLowRent ∧
        0 < (computeRow (6 / 100) 1 100 ((20 + (k : ℚ)) / 100) rLowRent).MonthlyCashFlow ∧
        ¬ 0 < (computeRow (6 / 100) 1 100 ((20 + (k : ℚ)) / 100 - 1 / 100) rLowRent).MonthlyCashFlow ∧
        ∀ j : ℕ, j < k →
          ¬ 0 < (computeRow (6 / 100) 1 100 ((20 + (j : ℚ)) / 100) rLowRent).MonthlyCashFlow) := by
  refine ⟨⟨?_, ?_⟩, ?_, ?_⟩
  · with_unfolding_all decide
  · exact (c4_first_positive_fraction (6 / 100) 1 100 rHighRent).1 (by with_unfolding_all decide)
  · with_unfolding_all decide
  · exact (c4_first_positive_fraction (6 / 100) 1 100 rLowRent).2 (by with_unfolding_all decide)
      bSearch (by with_unfolding_all rfl)

/-- A profitable zero-interest run inside all widget ranges: 1200 price,
half down, rent 100 against a mortgage of 5 a month, held two years. -/
def steadyInputs : ProjInputs :=
  { purchase_price := 1200, down_payment_pct := 1 / 2, interest_rate := 0, loan_years := 10,
    monthly_insurance := 0, annual_tax_rate := 0, monthly_rent := 100, vacancy_rate := 0,
    annual_appreciation := 0, annual_rent_increase := 0, holding_years := 2,
    initial_repairs := 0, ongoing_maintenance_pct := 0, extra_payment_monthly := 0,
    cashflow_to_principal_pct := 0 }

/-- The end-to-end scenario of the spec: 500000 at 20% down, 6.5% for 30
years, 3% appreciation, 2.5% rent growth, held 10 years. -/
def scenario1 : ProjInputs :=
  { purchase_price := 500000, down_payment_pct := 20 / 100, interest_rate := 65 / 1000,
    loan_years := 30, monthly_insurance := 150, annual_tax_rate := 125 / 10000,
    monthly_rent := 3000, vacancy_rate := 5 / 100, annual_appreciation := 3 / 100,
    annual_rent_increase := 25 / 1000, holding_years := 10, initial_repairs := 0,
    ongoing_maintenance_pct := 1 / 100, extra_payment_monthly := 0,
    cashflow_to_principal_pct := 0 }

set_option maxRecDepth 16000 in
theorem c6_witness : GoodInputs steadyInputs ∧ c6Prop steadyInputs :=
  ⟨by with_unfolding_all decide,
    c6_balance_monotone_nonnegative steadyInputs (by with_unfolding_all decide)⟩

set_option maxRecDepth 16000 in
theorem c3_amended_witness :
    (∀ n : ℕ, n < steadyInputs.holding_years →
        0 ≤ (rawRecord steadyInputs n).AnnualCashFlow) ∧
      (calculate_investment_projections steadyInputs).Pairwise
        (fun a b => a.CumulativeCashFlow ≤ b.CumulativeCashFlow) :=
  ⟨by with_unfolding_all decide,
    (c3_amended_monotone_under_nonnegative_increments steadyInputs).1
      (by with_unfolding_all decide)⟩

theorem c7_witness :
    (rawRecord scenario1 9).PropertyValue =
        scenario1.purchase_price * (1 + scenario1.annual_appreciation) ^ 9 ∧
      (rawRecord scenario1 9).MonthlyRent =
        scenario1.monthly_rent * (1 + scenario1.annual_rent_increase) ^ 9 ∧
      ∃ r : YearRecord, (calculate_investment_projections scenario1).get? 9 = some r ∧
        r.PropertyValue =
          round2 (scenario1.purchase_price * (1 + scenario1.annual_appreciation) ^ 9) ∧
        r.MonthlyRent =
          round2 (scenario1.monthly_rent * (1 + scenario1.annual_rent_increase) ^ 9) :=
  c7_annual_compounding scenario1 9 (by decide)

theorem c9_witness :
    (rawRecord steadyInputs 0).Equity =
        (rawRecord steadyInputs 0).PropertyValue - (rawRecord steadyInputs 0).LoanBalance ∧
      ∃ r : YearRecord, (calculate_investment_projections steadyInputs).get? 0 = some r ∧
        r.Equity =
          round2 ((rawRecord steadyInputs 0).PropertyValue -
            (rawRecord steadyInputs 0).LoanBalance) :=
  c9_equity_is_value_minus_balance steadyInputs 0 (by decide)

set_option maxRecDepth 16000 in
theorem c8_witness :
    ∃ r : YearRecord, (calculate_investment_projections steadyInputs).get? 0 = some r ∧
      r.CashOnCashReturn =
        round2 ((rawRecord steadyInputs 0).AnnualCashFlow /
          (down_payment steadyInputs + steadyInputs.initial_repairs) * 100) ∧
      r.TotalROI =
        round2 (((rawRecord steadyInputs 0).CumulativeCashFlow + (rawRecord steadyInputs 0).Equity -
            (down_payment steadyInputs + steadyInputs.initial_repairs +
              (rawRecord steadyInputs 0).CumulativeExtraPrincipal)) /
          (down_payment steadyInputs + steadyInputs.initial_repairs +
            (rawRecord steadyInputs 0).CumulativeExtraPrincipal) * 100) :=
  c8_return_denominators steadyInputs 0 (by decide) (by with_unfolding_all decide)
    (by with_unfolding_all decide)

end PropertyManager
